import Mathlib

/-!
Verification of the arm-task-scheduler core (src/Scheduler/OS.c, OS.h).

Shallow embedding: the C module's static globals (`task_array`, `task_count`,
`os_time`) become an explicit `SchedState` threaded through each operation.
Function pointers (`fncPtr`) and `void *` data pointers are modelled as `Nat`,
with `0` standing for `NULL`. All `uint32_t` arithmetic is `Nat` reduced
modulo `2 ^ 32` where the C code can overflow. Task bodies are modelled by an
environment `env : Nat → Nat → Nat` giving the `uint32_t` value the function
at a given pointer returns for a given data pointer (results are reduced
modulo `2 ^ 32`, matching the C return type).
-/

/-- `2 ^ 32`, the modulus of `uint32_t` arithmetic. -/
def U32 : Nat := 4294967296

/-- OS.h: `OS_MAX_TASK_NUM`, maximal number of registerable tasks (25). -/
def OS_MAX_TASK_NUM : Nat := 25

/-- OS.h: `OS_MAX_TIME`, maximal task period (24h in ms). -/
def OS_MAX_TIME : Nat := 86400000

/-- OS.h: `OS_MIN_TIME`, minimal task period. -/
def OS_MIN_TIME : Nat := 1

/-- OS.h: `period_1ms` member of the `task_period` enum. -/
def period_1ms : Nat := 1

/-- OS.h: `period_end`, the terminal sentinel return value (0). -/
def period_end : Nat := 0

/-- OS.h: the `OS_state` enum. -/
inductive OS_state where
  | SUSPENDED
  | BLOCKED
  | READY
  | STOPPED
deriving DecidableEq, Repr

export OS_state (SUSPENDED BLOCKED READY STOPPED)

/-- OS.h: the `OS_feedback` enum. -/
inductive OS_feedback where
  | OK
  | NOK_NULL_PTR
  | NOK_TIME_LIMIT
  | NOK_CNT_LIMIT
  | NOK_UNKNOWN
deriving DecidableEq, Repr

export OS_feedback (OK NOK_NULL_PTR NOK_TIME_LIMIT NOK_CNT_LIMIT NOK_UNKNOWN)

/-- OS.h: the `OS_struct` record of one task slot. `function = 0` is `NULL`. -/
structure OSTask where
  function : Nat
  task_period : Nat
  execute_time : Nat
  state : OS_state
  data_ptr : Nat
deriving DecidableEq, Repr

/-- The all-zero slot: C's static zero-initialisation of `task_array`, and
also exactly what `OS_TaskTimer` writes when it reclaims a STOPPED slot. -/
def defaultTask : OSTask := ⟨0, 0, 0, SUSPENDED, 0⟩

/-- The module's mutable globals: `task_array`, `task_count`, `os_time`. -/
structure SchedState where
  task_array : List OSTask
  task_count : Nat
  os_time : Nat
deriving DecidableEq, Repr

/-- Array indexing `task_array[i]` (slots are zero-initialised in C). -/
def taskAt (arr : List OSTask) (i : Nat) : OSTask := arr.getD i defaultTask

/-- The initial state: zeroed 25-slot array, `task_count = 0`, `os_time = 0`. -/
def OS_init : SchedState := ⟨List.replicate OS_MAX_TASK_NUM defaultTask, 0, 0⟩

/-- The scan loop of `OS_TaskFind`: index `i` with `r` iterations left
(`i + r = task_count` at the top-level call). -/
def findLoop (f : Nat) (arr : List OSTask) (i : Nat) : Nat → Nat
  | 0 => OS_MAX_TASK_NUM + 1
  | r + 1 => if (taskAt arr i).function = f then i else findLoop f arr (i + 1) r

/-- OS.c: `OS_TaskFind` — first slot below `task_count` whose `function`
field equals `f`, else the invalid position `OS_MAX_TASK_NUM + 1`. -/
def OS_TaskFind (s : SchedState) (f : Nat) : Nat :=
  findLoop f s.task_array 0 s.task_count

/-- The scan loop of `OS_TaskInsertPosition`: runs for indices
`i ≤ task_count` (fuel `r` = remaining iterations); on finding an
empty slot returns it, bumping `task_count` when the slot is the tail. -/
def insertLoop (arr : List OSTask) (cnt : Nat) (i : Nat) : Nat → Nat × Nat
  | 0 => (i, cnt)
  | r + 1 =>
    if (taskAt arr i).function = 0 then
      (i, if i = cnt then cnt + 1 else cnt)
    else insertLoop arr cnt (i + 1) r

/-- OS.c: `OS_TaskInsertPosition` — position to insert a new task, plus the
(possibly incremented) `task_count`. -/
def OS_TaskInsertPosition (s : SchedState) : Nat × Nat :=
  insertLoop s.task_array s.task_count 0 (s.task_count + 1)

/-- OS.c: `OS_TaskCreate`. Checks the period bounds, then the count limit,
then either updates the existing record of `function` in place or inserts a
fresh record at the position chosen by `OS_TaskInsertPosition`. -/
def OS_TaskCreate (s : SchedState) (function : Nat) (default_task_period : Nat)
    (default_state : OS_state) (function_data_ptr : Nat) (defer_time : Nat) :
    OS_feedback × SchedState :=
  if OS_MIN_TIME > default_task_period ∨ OS_MAX_TIME < default_task_period then
    (NOK_TIME_LIMIT, s)
  else if OS_MAX_TASK_NUM ≤ s.task_count then
    (NOK_CNT_LIMIT, s)
  else
    let position := OS_TaskFind s function
    if OS_MAX_TASK_NUM < position then
      let pr := OS_TaskInsertPosition s
      let newTask : OSTask :=
        ⟨function, default_task_period, (s.os_time + defer_time) % U32,
          default_state, function_data_ptr⟩
      (OK, ⟨s.task_array.set pr.1 newTask, pr.2, s.os_time⟩)
    else
      let old := taskAt s.task_array position
      let updTask : OSTask :=
        ⟨old.function, default_task_period, (s.os_time + defer_time) % U32,
          default_state, function_data_ptr⟩
      (OK, ⟨s.task_array.set position updTask, s.task_count, s.os_time⟩)

/-- OS.c: `OS_TaskIsInQueue`. -/
def OS_TaskIsInQueue (s : SchedState) (f : Nat) : Bool :=
  if OS_TaskFind s f < OS_MAX_TASK_NUM then true else false

/-- OS.c: `OS_GetOsTime`. -/
def OS_GetOsTime (s : SchedState) : Nat := s.os_time

/-- Applies `step` to the slots at indices `< cnt`, leaving the rest alone:
the shape of the `for (i = 0; i < task_count; i++)` loops whose bodies
mutate only `task_array[i]`. -/
def mapBelow (step : OSTask → OSTask) : Nat → List OSTask → List OSTask
  | _, [] => []
  | 0, arr => arr
  | c + 1, t :: rest => step t :: mapBelow step c rest

/-- The body of the `OS_TaskTimer` loop on one slot, given the already
incremented `os_time`: SUSPENDED ignored; BLOCKED with elapsed deadline
becomes READY with `execute_time += task_period * period_1ms`;
STOPPED slots are cleared back to the zero slot. -/
def OS_TaskTimerStep (time : Nat) (t : OSTask) : OSTask :=
  if t.state ≠ SUSPENDED then
    if t.state = BLOCKED then
      if t.execute_time ≤ time then
        ⟨t.function, t.task_period,
          (t.execute_time + t.task_period * period_1ms) % U32, READY, t.data_ptr⟩
      else t
    else if t.state = STOPPED then defaultTask
    else t
  else t

/-- OS.c: `OS_TaskTimer` — increments `os_time` (uint32) and applies the
per-slot transition to every slot below `task_count`. -/
def OS_TaskTimer (s : SchedState) : SchedState :=
  let time := (s.os_time + period_1ms) % U32
  ⟨mapBelow (OS_TaskTimerStep time) s.task_count s.task_array, s.task_count, time⟩

/-- The body of the `OS_TaskExecution` loop on one slot: a READY task is
invoked; if the returned period differs from the stored one, period and
`execute_time = OS_GetOsTime() + period` are overwritten; the state becomes
STOPPED when the return equals `period_end`, else BLOCKED. -/
def OS_TaskExecutionStep (env : Nat → Nat → Nat) (time : Nat) (t : OSTask) : OSTask :=
  if t.state = READY then
    let period := env t.function t.data_ptr % U32
    let t1 : OSTask :=
      if period ≠ t.task_period then
        ⟨t.function, period, (time + period) % U32, t.state, t.data_ptr⟩
      else t
    if period = period_end then
      ⟨t1.function, t1.task_period, t1.execute_time, STOPPED, t1.data_ptr⟩
    else
      ⟨t1.function, t1.task_period, t1.execute_time, BLOCKED, t1.data_ptr⟩
  else t

/-- OS.c: `OS_TaskExecution` — runs every READY slot below `task_count`,
with task bodies given by `env`. -/
def OS_TaskExecution (env : Nat → Nat → Nat) (s : SchedState) : SchedState :=
  ⟨mapBelow (OS_TaskExecutionStep env s.os_time) s.task_count s.task_array,
    s.task_count, s.os_time⟩

/-- Instrumented form of the `OS_TaskExecution` loop: same per-slot updates,
additionally logging `(slot index, function, data_ptr)` for each invocation
the loop performs (one per READY slot, in slot order). -/
def mapBelowLog (env : Nat → Nat → Nat) (time : Nat) (i : Nat) :
    Nat → List OSTask → List OSTask × List (Nat × Nat × Nat)
  | _, [] => ([], [])
  | 0, arr => (arr, [])
  | c + 1, t :: rest =>
    let pr := mapBelowLog env time (i + 1) c rest
    if t.state = READY then
      (OS_TaskExecutionStep env time t :: pr.1, (i, t.function, t.data_ptr) :: pr.2)
    else
      (OS_TaskExecutionStep env time t :: pr.1, pr.2)

/-- `OS_TaskExecution` with its invocation log. -/
def OS_TaskExecutionLog (env : Nat → Nat → Nat) (s : SchedState) :
    SchedState × List (Nat × Nat × Nat) :=
  let pr := mapBelowLog env s.os_time 0 s.task_count s.task_array
  (⟨pr.1, s.task_count, s.os_time⟩, pr.2)

/-- OS.c: `OS_SetTaskState`. -/
def OS_SetTaskState (s : SchedState) (f : Nat) (new_state : OS_state) :
    OS_feedback × SchedState :=
  let position := OS_TaskFind s f
  if position < OS_MAX_TASK_NUM then
    let old := taskAt s.task_array position
    (OK, ⟨s.task_array.set position
      ⟨old.function, old.task_period, old.execute_time, new_state, old.data_ptr⟩,
      s.task_count, s.os_time⟩)
  else
    (NOK_NULL_PTR, s)

/-- `n` successive `OS_TaskTimer` ticks. -/
def tickN : Nat → SchedState → SchedState
  | 0, s => s
  | n + 1, s => tickN n (OS_TaskTimer s)

/-- One invocation of either driving pass. -/
inductive Pass where
  | timer
  | execution (env : Nat → Nat → Nat)

/-- Apply one pass. -/
def applyPass : Pass → SchedState → SchedState
  | Pass.timer, s => OS_TaskTimer s
  | Pass.execution env, s => OS_TaskExecution env s

/-- Run a sequence of timer/execution passes. -/
def runPasses : List Pass → SchedState → SchedState
  | [], s => s
  | p :: ps, s => runPasses ps (applyPass p s)

/-- Register the identities `1, …, n` (period 1, BLOCKED, no data, no defer),
starting from the empty scheduler. -/
def fillN : Nat → SchedState
  | 0 => OS_init
  | n + 1 => (OS_TaskCreate (fillN n) (n + 1) 1 BLOCKED 0 0).2

/-! ### Helper lemmas about the loop shapes -/

theorem OS_TaskTimerStep_default (time : Nat) :
    OS_TaskTimerStep time defaultTask = defaultTask := by
  simp [OS_TaskTimerStep, defaultTask]

theorem OS_TaskExecutionStep_default (env : Nat → Nat → Nat) (time : Nat) :
    OS_TaskExecutionStep env time defaultTask = defaultTask := by
  simp [OS_TaskExecutionStep, defaultTask]

theorem taskAt_nil (i : Nat) : taskAt [] i = defaultTask := by
  simp [taskAt]

theorem taskAt_cons_zero (t : OSTask) (rest : List OSTask) :
    taskAt (t :: rest) 0 = t := rfl

theorem taskAt_cons_succ (t : OSTask) (rest : List OSTask) (j : Nat) :
    taskAt (t :: rest) (j + 1) = taskAt rest j := rfl

/-- Pointwise description of `mapBelow`, for any step that fixes the zero
slot (both loop bodies do). -/
theorem taskAt_mapBelow (step : OSTask → OSTask)
    (hd : step defaultTask = defaultTask) :
    ∀ (arr : List OSTask) (cnt i : Nat),
      taskAt (mapBelow step cnt arr) i =
        if i < cnt then step (taskAt arr i) else taskAt arr i := by
  intro arr
  induction arr with
  | nil =>
    intro cnt i
    simp [mapBelow, taskAt_nil, hd]
  | cons t rest ih =>
    intro cnt i
    cases cnt with
    | zero => simp [mapBelow]
    | succ c =>
      cases i with
      | zero => simp [mapBelow, taskAt_cons_zero]
      | succ j =>
        simp only [mapBelow, taskAt_cons_succ, ih c j, Nat.succ_lt_succ_iff]

/-- If no slot in the scanned range matches, `findLoop` reports the invalid
position. -/
theorem findLoop_invalid (f : Nat) (arr : List OSTask) :
    ∀ (r i : Nat), (∀ j, i ≤ j → j < i + r → (taskAt arr j).function ≠ f) →
      findLoop f arr i r = OS_MAX_TASK_NUM + 1 := by
  intro r
  induction r with
  | zero => intro i _; rfl
  | succ q ih =>
    intro i h
    have hi : (taskAt arr i).function ≠ f := h i (Nat.le_refl i) (by omega)
    simp only [findLoop, if_neg hi]
    exact ih (i + 1) (fun j hj1 hj2 => h j (by omega) (by omega))

/-- If some slot in the scanned range matches, `findLoop` returns a position
in the range whose slot matches. -/
theorem findLoop_found (f : Nat) (arr : List OSTask) :
    ∀ (r i : Nat), (∃ j, i ≤ j ∧ j < i + r ∧ (taskAt arr j).function = f) →
      i ≤ findLoop f arr i r ∧ findLoop f arr i r < i + r ∧
        (taskAt arr (findLoop f arr i r)).function = f := by
  intro r
  induction r with
  | zero =>
    intro i h
    rcases h with ⟨j, h1, h2, _⟩
    omega
  | succ q ih =>
    intro i h
    by_cases hi : (taskAt arr i).function = f
    · simp only [findLoop, if_pos hi]
      exact ⟨Nat.le_refl i, by omega, hi⟩
    · simp only [findLoop, if_neg hi]
      rcases h with ⟨j, h1, h2, h3⟩
      have hj : i + 1 ≤ j := by
        rcases Nat.eq_or_lt_of_le h1 with rfl | h
        · exact absurd h3 hi
        · exact h
      have := ih (i + 1) ⟨j, hj, by omega, h3⟩
      exact ⟨by omega, by omega, this.2.2⟩

/-- If some slot strictly below `cnt` (and in range) is empty, `insertLoop`
reuses it: the chosen position is below `cnt`, is empty, and `task_count`
is not incremented. -/
theorem insertLoop_reuse (arr : List OSTask) (cnt : Nat) :
    ∀ (r i : Nat), (∃ j, i ≤ j ∧ j < i + r ∧ j < cnt ∧ (taskAt arr j).function = 0) →
      (insertLoop arr cnt i r).1 < cnt ∧ (insertLoop arr cnt i r).2 = cnt ∧
        (taskAt arr (insertLoop arr cnt i r).1).function = 0 := by
  intro r
  induction r with
  | zero =>
    intro i h
    rcases h with ⟨j, h1, h2, _, _⟩
    omega
  | succ q ih =>
    intro i h
    by_cases hi : (taskAt arr i).function = 0
    · rcases h with ⟨j, h1, _, h3, _⟩
      have hic : i < cnt := by omega
      simp only [insertLoop, if_pos hi, if_neg (by omega : ¬ i = cnt)]
      exact ⟨hic, trivial, hi⟩
    · simp only [insertLoop, if_neg hi]
      rcases h with ⟨j, h1, h2, h3, h4⟩
      have hj : i + 1 ≤ j := by
        rcases Nat.eq_or_lt_of_le h1 with rfl | h
        · exact absurd h4 hi
        · exact h
      exact ih (i + 1) ⟨j, hj, by omega, h3, h4⟩

/-- The clock after `n` ticks, for any state whose clock is a `uint32_t`
value. -/
theorem tickN_os_time (n : Nat) :
    ∀ s : SchedState, s.os_time < U32 →
      (tickN n s).os_time = (s.os_time + n) % U32 := by
  induction n with
  | zero =>
    intro s hs
    simp only [tickN, Nat.add_zero]
    exact (Nat.mod_eq_of_lt hs).symm
  | succ m ih =>
    intro s hs
    have hU : 0 < U32 := by decide
    have h1 : (OS_TaskTimer s).os_time = (s.os_time + 1) % U32 := rfl
    have h2 : (OS_TaskTimer s).os_time < U32 := by
      rw [h1]; exact Nat.mod_lt _ hU
    show (tickN m (OS_TaskTimer s)).os_time = _
    rw [ih (OS_TaskTimer s) h2, h1, Nat.mod_add_mod]
    congr 1
    omega

/-! ### Concrete scenario states -/

/-- A task environment in which every task body returns 0 (`period_end`). -/
def envZero : Nat → Nat → Nat := fun _ _ => 0

/-- Task body of identity 1 returns the terminal sentinel, all others
return their period 1. -/
def envStopOne : Nat → Nat → Nat := fun f _ => if f = 1 then 0 else 1

/-- Every task body returns 10 (scenario A of the spec). -/
def envA : Nat → Nat → Nat := fun _ _ => 10

/-- Scenario: register identity 1 as READY, run it (it returns the terminal
sentinel, so it becomes STOPPED), then tick once so the timer pass reclaims
slot 0, clearing its `function` field to NULL. -/
def reclaimedState : SchedState :=
  OS_TaskTimer (OS_TaskExecution envZero (OS_TaskCreate OS_init 1 1 READY 0 0).2)

/-- Scenario: fill the table to `OS_MAX_TASK_NUM`, tick (all READY), run
(task 1 returns the sentinel and is STOPPED), tick again (slot 0 is
reclaimed). The high-water mark `task_count` stays at 25. -/
def capacityReclaimedState : SchedState :=
  OS_TaskTimer (OS_TaskExecution envStopOne (OS_TaskTimer (fillN OS_MAX_TASK_NUM)))

/-- Scenario A start: task A = identity 1, period 10, BLOCKED, defer 0,
registered at T = 0. -/
def scenarioAStart : SchedState := (OS_TaskCreate OS_init 1 10 BLOCKED 0 0).2

/-- The 24 never-used slots behind scenario A's single task. -/
def padTasks : List OSTask := List.replicate 24 defaultTask

/-- Scenario A after `k` completed cycles: task A blocked with deadline
`10 * k` at time `10 * k`. -/
def scenarioAState (k : Nat) : SchedState :=
  ⟨⟨1, 10, 10 * k, BLOCKED, 0⟩ :: padTasks, 1, 10 * k⟩

/-- A state whose 32-bit clock is about to wrap: one BLOCKED task with an
elapsed deadline at `os_time = 2 ^ 32 - 1`. -/
def wrapState : SchedState :=
  ⟨⟨1, 10, 5, BLOCKED, 0⟩ :: List.replicate 24 defaultTask, 1, 4294967295⟩

/-! ### More loop-shape lemmas -/

theorem mapBelow_zero (step : OSTask → OSTask) (arr : List OSTask) :
    mapBelow step 0 arr = arr := by
  cases arr <;> rfl

theorem mapBelow_succ_cons (step : OSTask → OSTask) (c : Nat) (t : OSTask)
    (rest : List OSTask) :
    mapBelow step (c + 1) (t :: rest) = step t :: mapBelow step c rest := rfl

/-- A tick leaves a single READY task alone and advances the clock. -/
theorem OS_TaskTimer_single_ready (t : OSTask) (rest : List OSTask) (T : Nat)
    (h : t.state = READY) :
    OS_TaskTimer ⟨t :: rest, 1, T⟩ = ⟨t :: rest, 1, (T + period_1ms) % U32⟩ := by
  show (⟨mapBelow _ 1 (t :: rest), 1, (T + period_1ms) % U32⟩ : SchedState) = _
  rw [mapBelow_succ_cons, mapBelow_zero]
  have hstep : OS_TaskTimerStep ((T + period_1ms) % U32) t = t := by
    simp [OS_TaskTimerStep, h]
  rw [hstep]

/-- A tick on a single BLOCKED task whose deadline has elapsed (w.r.t. the
post-increment clock) makes it READY and advances its deadline by its
period. -/
theorem OS_TaskTimer_single_blocked_due (t : OSTask) (rest : List OSTask) (T : Nat)
    (h : t.state = BLOCKED) (hd : t.execute_time ≤ (T + period_1ms) % U32) :
    OS_TaskTimer ⟨t :: rest, 1, T⟩ =
      ⟨⟨t.function, t.task_period,
          (t.execute_time + t.task_period * period_1ms) % U32, READY, t.data_ptr⟩ :: rest,
        1, (T + period_1ms) % U32⟩ := by
  show (⟨mapBelow _ 1 (t :: rest), 1, (T + period_1ms) % U32⟩ : SchedState) = _
  rw [mapBelow_succ_cons, mapBelow_zero]
  have hstep : OS_TaskTimerStep ((T + period_1ms) % U32) t =
      ⟨t.function, t.task_period,
        (t.execute_time + t.task_period * period_1ms) % U32, READY, t.data_ptr⟩ := by
    simp [OS_TaskTimerStep, h, hd]
  rw [hstep]

/-- `n` ticks on a single READY task only advance the clock (no wrap). -/
theorem tickN_single_ready (t : OSTask) (rest : List OSTask) (h : t.state = READY) :
    ∀ (n T : Nat), T + n < U32 →
      tickN n ⟨t :: rest, 1, T⟩ = ⟨t :: rest, 1, T + n⟩ := by
  intro n
  induction n with
  | zero => intro T _; rfl
  | succ m ih =>
    intro T hT
    show tickN m (OS_TaskTimer ⟨t :: rest, 1, T⟩) = _
    rw [OS_TaskTimer_single_ready t rest T h]
    have hmod : (T + period_1ms) % U32 = T + 1 :=
      Nat.mod_eq_of_lt (by simp only [period_1ms]; omega)
    rw [hmod, ih (T + 1) (by omega)]
    congr 1
    omega

/-- The executed slot list together with the invocation log agrees with the
plain executed slot list. -/
theorem mapBelowLog_fst (env : Nat → Nat → Nat) (time : Nat) :
    ∀ (arr : List OSTask) (c i : Nat),
      (mapBelowLog env time i c arr).1 =
        mapBelow (OS_TaskExecutionStep env time) c arr := by
  intro arr
  induction arr with
  | nil => intro c i; cases c <;> rfl
  | cons t rest ih =>
    intro c i
    cases c with
    | zero => rfl
    | succ m =>
      simp only [mapBelowLog, mapBelow_succ_cons]
      by_cases hts : t.state = READY
      · simp [if_pos hts, ih m (i + 1)]
      · simp [if_neg hts, ih m (i + 1)]

theorem mapBelowLog_succ_cons (env : Nat → Nat → Nat) (time : Nat) (i c : Nat)
    (t : OSTask) (rest : List OSTask) :
    mapBelowLog env time i (c + 1) (t :: rest) =
      (OS_TaskExecutionStep env time t :: (mapBelowLog env time (i + 1) c rest).1,
        if t.state = READY then
          (i, t.function, t.data_ptr) :: (mapBelowLog env time (i + 1) c rest).2
        else (mapBelowLog env time (i + 1) c rest).2) := by
  by_cases hts : t.state = READY <;> simp [mapBelowLog, hts]

theorem mapBelowLog_snd (env : Nat → Nat → Nat) (time : Nat) :
    ∀ (arr : List OSTask) (c i : Nat),
      (mapBelowLog env time i c arr).2 =
        (List.range c).filterMap (fun j =>
          if (taskAt arr j).state = READY then
            some (i + j, (taskAt arr j).function, (taskAt arr j).data_ptr)
          else none) := by
  intro arr
  induction arr with
  | nil =>
    intro c i
    have h1 : (mapBelowLog env time i c ([] : List OSTask)).2 = [] := by cases c <;> rfl
    rw [h1]
    symm
    rw [List.filterMap_eq_nil_iff]
    intro j _
    simp [taskAt_nil, defaultTask]
  | cons t rest ih =>
    intro c i
    cases c with
    | zero => rfl
    | succ m =>
      rw [List.range_succ_eq_map, List.filterMap_cons, List.filterMap_map,
        mapBelowLog_succ_cons]
      have h2 : ((fun j =>
            if (taskAt (t :: rest) j).state = READY then
              some (i + j, (taskAt (t :: rest) j).function,
                (taskAt (t :: rest) j).data_ptr)
            else none) ∘ Nat.succ) = (fun j =>
            if (taskAt rest j).state = READY then
              some ((i + 1) + j, (taskAt rest j).function, (taskAt rest j).data_ptr)
            else none) := by
        funext j
        have hy : i + Nat.succ j = (i + 1) + j := by omega
        simp only [Function.comp_apply, taskAt_cons_succ, hy]
      rw [h2]
      by_cases hts : t.state = READY
      · simp only [taskAt_cons_zero, if_pos hts, Nat.add_zero, ih m (i + 1)]
      · simp only [taskAt_cons_zero, if_neg hts, ih m (i + 1)]

/-! ### Claims -/

/-- C7: starting from the empty scheduler, registering the 25 distinct
identities `1, …, 25` with valid periods succeeds at every step, and the
26th registration of a further distinct identity fails with
`NOK_CNT_LIMIT`, leaving the whole state unchanged. -/
theorem OS_TaskCreate_capacity_limit :
    (∀ k, k < OS_MAX_TASK_NUM →
      (OS_TaskCreate (fillN k) (k + 1) 1 BLOCKED 0 0).1 = OK) ∧
    (OS_TaskCreate (fillN OS_MAX_TASK_NUM) (OS_MAX_TASK_NUM + 1) 1 BLOCKED 0 0).1 =
      NOK_CNT_LIMIT ∧
    (OS_TaskCreate (fillN OS_MAX_TASK_NUM) (OS_MAX_TASK_NUM + 1) 1 BLOCKED 0 0).2 =
      fillN OS_MAX_TASK_NUM := by
  refine ⟨?_, by decide, by decide⟩
  decide

/-- C7 witness: the 4th registration (a concrete instance of the universally
quantified first conjunct) succeeds. -/
theorem OS_TaskCreate_capacity_limit_witness :
    (OS_TaskCreate (fillN 3) (3 + 1) 1 BLOCKED 0 0).1 = OK :=
  OS_TaskCreate_capacity_limit.1 3 (by decide)

/-- C10: in the reachable state obtained by registering identity 1 READY,
executing it (it returns the terminal sentinel and stops), and ticking once
(slot 0 reclaimed, `function` cleared to NULL), `OS_TaskIsInQueue NULL`
returns `true` because `OS_TaskFind` matches the cleared `function` field of
the freed slot 0, which lies below the high-water mark `task_count = 1`;
moreover registration does not reject a NULL entry point either. -/
theorem OS_TaskIsInQueue_null_matches_freed_slot :
    OS_TaskIsInQueue reclaimedState 0 = true ∧
    OS_TaskFind reclaimedState 0 = 0 ∧
    (taskAt reclaimedState.task_array 0).function = 0 ∧
    0 < reclaimedState.task_count ∧
    (OS_TaskCreate OS_init 0 1 BLOCKED 0 0).1 = OK := by
  decide

/-- C9 (amended): each `OS_TaskTimer` sets the clock to
`(os_time + period_1ms) % 2 ^ 32`; over any sequence of ticks that does not
wrap the 32-bit counter the clock is strictly monotonically increasing. -/
theorem OS_TaskTimer_clock_increment :
    (∀ s : SchedState, (OS_TaskTimer s).os_time = (s.os_time + period_1ms) % U32) ∧
    (∀ (s : SchedState) (n : Nat), s.os_time + n < U32 →
      (tickN n s).os_time = s.os_time + n) ∧
    (∀ (s : SchedState) (m n : Nat), m < n → s.os_time + n < U32 →
      (tickN m s).os_time < (tickN n s).os_time) := by
  have key : ∀ (s : SchedState) (n : Nat), s.os_time + n < U32 →
      (tickN n s).os_time = s.os_time + n := by
    intro s n h
    rw [tickN_os_time n s (by omega)]
    exact Nat.mod_eq_of_lt h
  refine ⟨fun s => rfl, key, ?_⟩
  intro s m n hmn h
  rw [key s m (by omega), key s n h]
  omega

/-- C9 witness: ticking 5 times from the initial state advances the clock
from 0 to 5. -/
theorem OS_TaskTimer_clock_increment_witness :
    (tickN 5 OS_init).os_time = OS_init.os_time + 5 :=
  OS_TaskTimer_clock_increment.2.1 OS_init 5 (by decide)

/-- C9 counterexample: the clock is not strictly monotonically increasing
over every sequence of ticks — after `2 ^ 32` ticks from the initial state
it has wrapped back to its starting value 0. -/
theorem os_time_wraparound_cex :
    (tickN U32 OS_init).os_time = (tickN 0 OS_init).os_time ∧
    ¬ (tickN 0 OS_init).os_time < (tickN U32 OS_init).os_time := by
  have h : (tickN U32 OS_init).os_time = 0 := by
    rw [tickN_os_time U32 OS_init (by decide)]
    decide
  rw [h]
  exact ⟨rfl, by simp [tickN, OS_init]⟩

/-- C1 counterexample: with the table's slot count (`task_count`) at
`OS_MAX_TASK_NUM`, identity 1 has an active record and period 5 is within
bounds, yet `OS_TaskCreate` returns `NOK_CNT_LIMIT`, not `OK` — the count
check precedes the re-registration lookup. -/
theorem reregister_at_capacity_cex :
    OS_TaskIsInQueue (fillN OS_MAX_TASK_NUM) 1 = true ∧
    (fillN OS_MAX_TASK_NUM).task_count = OS_MAX_TASK_NUM ∧
    (OS_TaskCreate (fillN OS_MAX_TASK_NUM) 1 5 BLOCKED 0 0).1 = NOK_CNT_LIMIT ∧
    (OS_TaskCreate (fillN OS_MAX_TASK_NUM) 1 5 BLOCKED 0 0).1 ≠ OK := by
  decide

/-- C1 (amended): provided `task_count < OS_MAX_TASK_NUM`, re-registering an
identity that already has an active record at position `p` returns `OK` and
overwrites that record's period, state, context and deadline
(`now + defer`, modulo `2 ^ 32`) in place — the array changes only at `p`,
`task_count` is unchanged, so no second record is created; when
`task_count` is at `OS_MAX_TASK_NUM` the call instead returns
`NOK_CNT_LIMIT` and changes nothing. -/
theorem OS_TaskCreate_reregister_inplace (s : SchedState)
    (f p period : Nat) (st : OS_state) (dat defer : Nat)
    (hfind : OS_TaskFind s f = p) (hp : p < s.task_count)
    (hcnt : s.task_count < OS_MAX_TASK_NUM)
    (hmin : OS_MIN_TIME ≤ period) (hmax : period ≤ OS_MAX_TIME) :
    (OS_TaskCreate s f period st dat defer =
      (OK, ⟨s.task_array.set p
          ⟨(taskAt s.task_array p).function, period, (s.os_time + defer) % U32,
            st, dat⟩,
        s.task_count, s.os_time⟩)) ∧
    (∀ (s2 : SchedState) (f2 p2 : Nat) (st2 : OS_state) (dat2 defer2 : Nat),
      OS_MIN_TIME ≤ p2 → p2 ≤ OS_MAX_TIME → OS_MAX_TASK_NUM ≤ s2.task_count →
      OS_TaskCreate s2 f2 p2 st2 dat2 defer2 = (NOK_CNT_LIMIT, s2)) := by
  constructor
  · have h1 : ¬ (OS_MIN_TIME > period ∨ OS_MAX_TIME < period) := by
      push_neg
      exact ⟨hmin, hmax⟩
    have h2 : ¬ (OS_MAX_TASK_NUM ≤ s.task_count) := by omega
    have h3 : ¬ (OS_MAX_TASK_NUM < p) := by omega
    simp only [OS_TaskCreate, if_neg h1, if_neg h2, hfind, if_neg h3]
  · intro s2 f2 p2 st2 dat2 defer2 hmin2 hmax2 hge
    have h1 : ¬ (OS_MIN_TIME > p2 ∨ OS_MAX_TIME < p2) := by
      push_neg
      exact ⟨hmin2, hmax2⟩
    simp only [OS_TaskCreate, if_neg h1, if_pos hge]

/-- C1 witness: re-registering identity 1 in the two-task state overwrites
its record in place with the new period 7, state SUSPENDED, context 9 and
deadline `0 + 3`. -/
theorem OS_TaskCreate_reregister_inplace_witness :
    OS_TaskCreate (fillN 2) 1 7 SUSPENDED 9 3 =
      (OK, ⟨(fillN 2).task_array.set 0
          ⟨(taskAt (fillN 2).task_array 0).function, 7,
            ((fillN 2).os_time + 3) % U32, SUSPENDED, 9⟩,
        (fillN 2).task_count, (fillN 2).os_time⟩) :=
  (OS_TaskCreate_reregister_inplace (fillN 2) 1 0 7 SUSPENDED 9 3
    (by decide) (by decide) (by decide) (by decide) (by decide)).1

/-- C3 counterexample: task A (period 10, BLOCKED, defer 0, registered at
T = 0) is already READY after the very first tick (T = 1), not first on the
10th tick, and after 10 ticks its stored deadline is 10, not 20: with
defer 0 its initial deadline 0 has already elapsed at the first tick. -/
theorem scenarioA_first_ready_cex :
    (taskAt scenarioAStart.task_array 0).state = BLOCKED ∧
    (taskAt (tickN 1 scenarioAStart).task_array 0).state = READY ∧
    (tickN 1 scenarioAStart).os_time = 1 ∧
    (taskAt (tickN 10 scenarioAStart).task_array 0).execute_time = 10 ∧
    (taskAt (tickN 10 scenarioAStart).task_array 0).execute_time ≠ 20 := by
  decide

/-- C4 counterexample: a BLOCKED task with deadline 5 ≤ current time
`2 ^ 32 - 1` is not transitioned to READY by the next `OS_TaskTimer` — the
incremented clock wraps to 0 and the comparison `execute_time <= os_time`
fails, so the task stays BLOCKED with its deadline unchanged. -/
theorem timer_wraparound_cex :
    (taskAt wrapState.task_array 0).state = BLOCKED ∧
    (taskAt wrapState.task_array 0).execute_time ≤ wrapState.os_time ∧
    taskAt (OS_TaskTimer wrapState).task_array 0 = taskAt wrapState.task_array 0 ∧
    (taskAt (OS_TaskTimer wrapState).task_array 0).state ≠ READY := by
  decide

/-- C2 counterexample: at `task_count = OS_MAX_TASK_NUM`, after task 1
returned the terminal sentinel and the next tick reclaimed its slot
(slot 0 is the zero slot, `OS_TaskIsInQueue 1` is false), registering a
fresh valid identity still fails with `NOK_CNT_LIMIT` instead of reusing
the free slot — the count check looks at the never-decreasing high-water
mark, not at the number of active records. -/
theorem reclaimed_slot_at_capacity_cex :
    taskAt capacityReclaimedState.task_array 0 = defaultTask ∧
    OS_TaskIsInQueue capacityReclaimedState 1 = false ∧
    capacityReclaimedState.task_count = OS_MAX_TASK_NUM ∧
    (OS_TaskCreate capacityReclaimedState 100 1 BLOCKED 0 0).1 = NOK_CNT_LIMIT ∧
    (OS_TaskCreate capacityReclaimedState 100 1 BLOCKED 0 0).1 ≠ OK := by
  decide

/-- A one-task state used as concrete witness input: task 1 BLOCKED with an
elapsed deadline at time 7. -/
def blockedWitnessState : SchedState :=
  ⟨⟨1, 3, 5, BLOCKED, 9⟩ :: List.replicate 24 defaultTask, 1, 7⟩

/-- A one-task state used as concrete witness input: task 1 READY. -/
def readyWitnessState : SchedState :=
  ⟨⟨1, 3, 5, READY, 9⟩ :: List.replicate 24 defaultTask, 1, 7⟩

/-- Every task body returns 7. -/
def envSeven : Nat → Nat → Nat := fun _ _ => 7

/-- C4 (amended): for a BLOCKED task at slot `i` with deadline `d ≤ T`
(current time), the next `OS_TaskTimer` transitions it to READY with new
deadline `(d + P) mod 2 ^ 32`, provided the incremented 32-bit clock does
not wrap; a BLOCKED task whose deadline exceeds the post-tick time stays
BLOCKED with all fields unchanged. -/
theorem OS_TaskTimer_blocked_transition (s : SchedState) (i : Nat)
    (hi : i < s.task_count)
    (hb : (taskAt s.task_array i).state = BLOCKED) :
    ((taskAt s.task_array i).execute_time ≤ s.os_time →
      s.os_time + period_1ms < U32 →
      taskAt (OS_TaskTimer s).task_array i =
        ⟨(taskAt s.task_array i).function, (taskAt s.task_array i).task_period,
          ((taskAt s.task_array i).execute_time +
            (taskAt s.task_array i).task_period * period_1ms) % U32, READY,
          (taskAt s.task_array i).data_ptr⟩) ∧
    ((OS_TaskTimer s).os_time < (taskAt s.task_array i).execute_time →
      taskAt (OS_TaskTimer s).task_array i = taskAt s.task_array i) := by
  have hmap := taskAt_mapBelow (OS_TaskTimerStep ((s.os_time + period_1ms) % U32))
    (OS_TaskTimerStep_default _) s.task_array s.task_count i
  have harr : (OS_TaskTimer s).task_array =
      mapBelow (OS_TaskTimerStep ((s.os_time + period_1ms) % U32))
        s.task_count s.task_array := rfl
  constructor
  · intro hdue hnow
    rw [harr, hmap, if_pos hi]
    have htime : (s.os_time + period_1ms) % U32 = s.os_time + period_1ms :=
      Nat.mod_eq_of_lt hnow
    have hle : (taskAt s.task_array i).execute_time ≤ (s.os_time + period_1ms) % U32 := by
      rw [htime]
      omega
    simp [OS_TaskTimerStep, hb, hle]
  · intro hlt
    rw [harr, hmap, if_pos hi]
    have hnow : (OS_TaskTimer s).os_time = (s.os_time + period_1ms) % U32 := rfl
    rw [hnow] at hlt
    have hnle : ¬ (taskAt s.task_array i).execute_time ≤ (s.os_time + period_1ms) % U32 :=
      Nat.not_le.mpr hlt
    simp [OS_TaskTimerStep, hb, hnle]

/-- C4 witness: in `blockedWitnessState` (deadline 5 ≤ time 7) the tick makes
slot 0 READY with deadline `(5 + 3) mod 2 ^ 32`. -/
theorem OS_TaskTimer_blocked_transition_witness :
    taskAt (OS_TaskTimer blockedWitnessState).task_array 0 =
      ⟨(taskAt blockedWitnessState.task_array 0).function,
        (taskAt blockedWitnessState.task_array 0).task_period,
        ((taskAt blockedWitnessState.task_array 0).execute_time +
          (taskAt blockedWitnessState.task_array 0).task_period * period_1ms) % U32,
        READY, (taskAt blockedWitnessState.task_array 0).data_ptr⟩ :=
  (OS_TaskTimer_blocked_transition blockedWitnessState 0 (by decide) (by decide)).1
    (by decide) (by decide)

/-- C5: when `OS_TaskExecution` invokes a READY task at slot `i` and the
returned value `r` (a `uint32_t`) differs from the stored period, the stored
period becomes `r` and the deadline becomes `(OS_GetOsTime + r) mod 2 ^ 32`,
anchored to the current time; when `r` equals the stored period, both the
period and the deadline are unchanged. -/
theorem OS_TaskExecution_period_update (env : Nat → Nat → Nat) (s : SchedState)
    (i : Nat) (hi : i < s.task_count)
    (hr : (taskAt s.task_array i).state = READY) :
    (env (taskAt s.task_array i).function (taskAt s.task_array i).data_ptr % U32 ≠
        (taskAt s.task_array i).task_period →
      (taskAt (OS_TaskExecution env s).task_array i).task_period =
        env (taskAt s.task_array i).function (taskAt s.task_array i).data_ptr % U32 ∧
      (taskAt (OS_TaskExecution env s).task_array i).execute_time =
        (OS_GetOsTime s +
          env (taskAt s.task_array i).function (taskAt s.task_array i).data_ptr % U32) %
          U32) ∧
    (env (taskAt s.task_array i).function (taskAt s.task_array i).data_ptr % U32 =
        (taskAt s.task_array i).task_period →
      (taskAt (OS_TaskExecution env s).task_array i).task_period =
        (taskAt s.task_array i).task_period ∧
      (taskAt (OS_TaskExecution env s).task_array i).execute_time =
        (taskAt s.task_array i).execute_time) := by
  have hmap := taskAt_mapBelow (OS_TaskExecutionStep env s.os_time)
    (OS_TaskExecutionStep_default env s.os_time) s.task_array s.task_count i
  have harr : (OS_TaskExecution env s).task_array =
      mapBelow (OS_TaskExecutionStep env s.os_time) s.task_count s.task_array := rfl
  constructor
  · intro hne
    rw [harr, hmap, if_pos hi]
    by_cases hz : env (taskAt s.task_array i).function
        (taskAt s.task_array i).data_ptr % U32 = period_end
    · have hne2 : period_end ≠ (taskAt s.task_array i).task_period := hz ▸ hne
      simp [OS_TaskExecutionStep, hr, hne, hz, hne2, OS_GetOsTime]
    · simp [OS_TaskExecutionStep, hr, hne, hz, OS_GetOsTime]
  · intro heq
    rw [harr, hmap, if_pos hi]
    by_cases hz : env (taskAt s.task_array i).function
        (taskAt s.task_array i).data_ptr % U32 = period_end
    · have heq2 : (taskAt s.task_array i).task_period = period_end := heq ▸ hz
      simp [OS_TaskExecutionStep, hr, heq, hz, heq2]
    · simp only [OS_TaskExecutionStep, hr, heq, if_pos rfl, ite_not, if_pos]
      split <;> simp

/-- C5 witness: in `readyWitnessState` (stored period 3, time 7) a task body
returning 7 rewrites the period to 7 and the deadline to `(7 + 7) mod 2 ^ 32`. -/
theorem OS_TaskExecution_period_update_witness :
    (taskAt (OS_TaskExecution envSeven readyWitnessState).task_array 0).task_period =
      envSeven (taskAt readyWitnessState.task_array 0).function
        (taskAt readyWitnessState.task_array 0).data_ptr % U32 ∧
    (taskAt (OS_TaskExecution envSeven readyWitnessState).task_array 0).execute_time =
      (OS_GetOsTime readyWitnessState +
        envSeven (taskAt readyWitnessState.task_array 0).function
          (taskAt readyWitnessState.task_array 0).data_ptr % U32) % U32 :=
  (OS_TaskExecution_period_update envSeven readyWitnessState 0
    (by decide) (by decide)).1 (by decide)

/-- The state of a READY slot after the execution step: STOPPED exactly
when the returned value is the terminal sentinel, else BLOCKED. -/
theorem OS_TaskExecutionStep_state (env : Nat → Nat → Nat) (time : Nat)
    (t : OSTask) (hr : t.state = READY) :
    (OS_TaskExecutionStep env time t).state =
      if env t.function t.data_ptr % U32 = period_end then STOPPED else BLOCKED := by
  by_cases hz : env t.function t.data_ptr % U32 = period_end
  · by_cases hne : env t.function t.data_ptr % U32 = t.task_period
    · have h2 : t.task_period = period_end := hne ▸ hz
      simp [OS_TaskExecutionStep, hr, hz, hne, h2]
    · simp [OS_TaskExecutionStep, hr, hz, hne]
  · by_cases hne : env t.function t.data_ptr % U32 = t.task_period
    · have h2 : ¬ t.task_period = period_end := hne ▸ hz
      simp [OS_TaskExecutionStep, hr, hz, hne, h2]
    · simp [OS_TaskExecutionStep, hr, hz, hne]

/-- The execution step ignores slots that are not READY. -/
theorem OS_TaskExecutionStep_not_ready (env : Nat → Nat → Nat) (time : Nat)
    (t : OSTask) (hr : t.state ≠ READY) :
    OS_TaskExecutionStep env time t = t := by
  simp [OS_TaskExecutionStep, hr]

/-- C6: in one `OS_TaskExecution` pass every slot below `task_count` found
READY is invoked exactly once — the invocation log is precisely the READY
slots in order, each contributing one entry — and afterwards its state is
STOPPED if and only if its returned value equals `period_end`, else
BLOCKED; no scanned slot is left READY. The instrumented pass produces the
same state as `OS_TaskExecution`. -/
theorem OS_TaskExecution_ready_once (env : Nat → Nat → Nat) (s : SchedState) :
    (∀ i, i < s.task_count → (taskAt s.task_array i).state = READY →
      (taskAt (OS_TaskExecution env s).task_array i).state =
        if env (taskAt s.task_array i).function (taskAt s.task_array i).data_ptr % U32 =
            period_end then STOPPED else BLOCKED) ∧
    (∀ i, i < s.task_count →
      (taskAt (OS_TaskExecution env s).task_array i).state ≠ READY) ∧
    (OS_TaskExecutionLog env s).2 =
      (List.range s.task_count).filterMap (fun j =>
        if (taskAt s.task_array j).state = READY then
          some (j, (taskAt s.task_array j).function, (taskAt s.task_array j).data_ptr)
        else none) ∧
    (OS_TaskExecutionLog env s).1 = OS_TaskExecution env s := by
  have hmap := fun i => taskAt_mapBelow (OS_TaskExecutionStep env s.os_time)
    (OS_TaskExecutionStep_default env s.os_time) s.task_array s.task_count i
  have harr : (OS_TaskExecution env s).task_array =
      mapBelow (OS_TaskExecutionStep env s.os_time) s.task_count s.task_array := rfl
  refine ⟨?_, ?_, ?_, ?_⟩
  · intro i hi hr
    rw [harr, hmap i, if_pos hi]
    exact OS_TaskExecutionStep_state env s.os_time _ hr
  · intro i hi
    rw [harr, hmap i, if_pos hi]
    by_cases hr : (taskAt s.task_array i).state = READY
    · rw [OS_TaskExecutionStep_state env s.os_time _ hr]
      split <;> simp
    · rw [OS_TaskExecutionStep_not_ready env s.os_time _ hr]
      exact hr
  · have h := mapBelowLog_snd env s.os_time s.task_array s.task_count 0
    have hlog : (OS_TaskExecutionLog env s).2 =
        (mapBelowLog env s.os_time 0 s.task_count s.task_array).2 := rfl
    rw [hlog, h]
    simp
  · have h := mapBelowLog_fst env s.os_time s.task_array s.task_count 0
    show (⟨(mapBelowLog env s.os_time 0 s.task_count s.task_array).1,
      s.task_count, s.os_time⟩ : SchedState) = _
    rw [h]
    rfl

/-- C6 witness: in `readyWitnessState` (one READY task returning 7 ≠ 0) the
executed slot 0 ends BLOCKED. -/
theorem OS_TaskExecution_ready_once_witness :
    (taskAt (OS_TaskExecution envSeven readyWitnessState).task_array 0).state =
      if envSeven (taskAt readyWitnessState.task_array 0).function
          (taskAt readyWitnessState.task_array 0).data_ptr % U32 = period_end
      then STOPPED else BLOCKED :=
  (OS_TaskExecution_ready_once envSeven readyWitnessState).1 0 (by decide) (by decide)

theorem taskAt_set_self (arr : List OSTask) (i : Nat) (t : OSTask)
    (h : i < arr.length) : taskAt (arr.set i t) i = t := by
  simp [taskAt, List.getD_eq_getElem?_getD, List.getElem?_set_eq_of_lt t h]

/-- The timer step ignores SUSPENDED slots. -/
theorem OS_TaskTimerStep_suspended (time : Nat) (t : OSTask)
    (h : t.state = SUSPENDED) : OS_TaskTimerStep time t = t := by
  simp [OS_TaskTimerStep, h]

/-- Either driving pass leaves a SUSPENDED slot's record untouched. -/
theorem applyPass_suspended (p : Pass) (s : SchedState) (i : Nat)
    (h : (taskAt s.task_array i).state = SUSPENDED) :
    taskAt (applyPass p s).task_array i = taskAt s.task_array i := by
  cases p with
  | timer =>
    show taskAt (OS_TaskTimer s).task_array i = _
    have hmap := taskAt_mapBelow (OS_TaskTimerStep ((s.os_time + period_1ms) % U32))
      (OS_TaskTimerStep_default _) s.task_array s.task_count i
    have harr : (OS_TaskTimer s).task_array =
        mapBelow (OS_TaskTimerStep ((s.os_time + period_1ms) % U32))
          s.task_count s.task_array := rfl
    rw [harr, hmap]
    by_cases hi : i < s.task_count
    · rw [if_pos hi, OS_TaskTimerStep_suspended _ _ h]
    · rw [if_neg hi]
  | execution env =>
    show taskAt (OS_TaskExecution env s).task_array i = _
    have hmap := taskAt_mapBelow (OS_TaskExecutionStep env s.os_time)
      (OS_TaskExecutionStep_default env s.os_time) s.task_array s.task_count i
    have harr : (OS_TaskExecution env s).task_array =
        mapBelow (OS_TaskExecutionStep env s.os_time) s.task_count s.task_array := rfl
    rw [harr, hmap]
    by_cases hi : i < s.task_count
    · rw [if_pos hi, OS_TaskExecutionStep_not_ready env s.os_time _ (by rw [h]; decide)]
    · rw [if_neg hi]

/-- A SUSPENDED slot's record survives any sequence of passes. -/
theorem runPasses_suspended (i : Nat) :
    ∀ (ps : List Pass) (s : SchedState),
      (taskAt s.task_array i).state = SUSPENDED →
      taskAt (runPasses ps s).task_array i = taskAt s.task_array i := by
  intro ps
  induction ps with
  | nil => intro s _; rfl
  | cons p rest ih =>
    intro s h
    show taskAt (runPasses rest (applyPass p s)).task_array i = _
    rw [ih (applyPass p s) (by rw [applyPass_suspended p s i h]; exact h),
      applyPass_suspended p s i h]

/-- C8: a task in the SUSPENDED state is untouched by any sequence of timer
and execution passes — its record (period, deadline, state, everything) is
unchanged no matter how much logical time elapses — and the execution pass
never invokes it (slot `i` never appears in the invocation log); an
explicit `OS_SetTaskState` on its identity does change its state. -/
theorem suspended_task_invariant (s : SchedState) (i : Nat)
    (hS : (taskAt s.task_array i).state = SUSPENDED) :
    (∀ ps : List Pass, taskAt (runPasses ps s).task_array i = taskAt s.task_array i) ∧
    (∀ (ps : List Pass) (env : Nat → Nat → Nat) (x y : Nat),
      (i, x, y) ∉ (OS_TaskExecutionLog env (runPasses ps s)).2) ∧
    (∀ st2 : OS_state,
      OS_TaskFind s ((taskAt s.task_array i).function) = i →
      i < OS_MAX_TASK_NUM → i < s.task_array.length →
      taskAt (OS_SetTaskState s ((taskAt s.task_array i).function) st2).2.task_array i =
        ⟨(taskAt s.task_array i).function, (taskAt s.task_array i).task_period,
          (taskAt s.task_array i).execute_time, st2,
          (taskAt s.task_array i).data_ptr⟩) := by
  refine ⟨fun ps => runPasses_suspended i ps s hS, ?_, ?_⟩
  · intro ps env x y hmem
    have hrec := runPasses_suspended i ps s hS
    have hlog : (OS_TaskExecutionLog env (runPasses ps s)).2 =
        (mapBelowLog env (runPasses ps s).os_time 0 (runPasses ps s).task_count
          (runPasses ps s).task_array).2 := rfl
    rw [hlog, mapBelowLog_snd] at hmem
    rcases List.mem_filterMap.mp hmem with ⟨j, _, hj⟩
    by_cases hready : (taskAt (runPasses ps s).task_array j).state = READY
    · rw [if_pos hready] at hj
      have hji : j = i := by
        have h1 := congrArg Prod.fst (Option.some_inj.mp hj)
        simpa using h1
      rw [hji, hrec, hS] at hready
      exact absurd hready (by decide)
    · rw [if_neg hready] at hj
      exact Option.noConfusion hj
  · intro st2 hfind hilt hlen
    have hset : (OS_SetTaskState s ((taskAt s.task_array i).function) st2).2 =
        ⟨s.task_array.set i
          ⟨(taskAt s.task_array i).function, (taskAt s.task_array i).task_period,
            (taskAt s.task_array i).execute_time, st2,
            (taskAt s.task_array i).data_ptr⟩, s.task_count, s.os_time⟩ := by
      simp only [OS_SetTaskState, hfind, if_pos hilt]
    rw [hset]
    exact taskAt_set_self _ i _ hlen

/-- A two-task state used as concrete witness input: task 5 STOPPED (just
returned the sentinel), task 7 BLOCKED, high-water mark 2, time 9. -/
def stoppedWitnessState : SchedState :=
  ⟨⟨5, 1, 3, STOPPED, 0⟩ :: ⟨7, 1, 3, BLOCKED, 0⟩ :: List.replicate 23 defaultTask, 2, 9⟩

/-- A one-task state used as concrete witness input: task 4 SUSPENDED. -/
def suspendedWitnessState : SchedState :=
  ⟨⟨4, 2, 6, SUSPENDED, 8⟩ :: List.replicate 24 defaultTask, 1, 3⟩

/-- C8 witness: the SUSPENDED task 4 survives a timer/execution/timer pass
sequence unchanged, and an explicit `OS_SetTaskState` moves it to BLOCKED. -/
theorem suspended_task_invariant_witness :
    taskAt (runPasses [Pass.timer, Pass.execution envSeven, Pass.timer]
        suspendedWitnessState).task_array 0 =
      taskAt suspendedWitnessState.task_array 0 ∧
    taskAt (OS_SetTaskState suspendedWitnessState
        ((taskAt suspendedWitnessState.task_array 0).function) BLOCKED).2.task_array 0 =
      ⟨(taskAt suspendedWitnessState.task_array 0).function,
        (taskAt suspendedWitnessState.task_array 0).task_period,
        (taskAt suspendedWitnessState.task_array 0).execute_time, BLOCKED,
        (taskAt suspendedWitnessState.task_array 0).data_ptr⟩ :=
  ⟨(suspended_task_invariant suspendedWitnessState 0 (by decide)).1
      [Pass.timer, Pass.execution envSeven, Pass.timer],
    (suspended_task_invariant suspendedWitnessState 0 (by decide)).2.2 BLOCKED
      (by decide) (by decide) (by decide)⟩

/-- The timer step clears a STOPPED slot to the zero slot. -/
theorem OS_TaskTimerStep_stopped (time : Nat) (t : OSTask)
    (h : t.state = STOPPED) : OS_TaskTimerStep time t = defaultTask := by
  simp [OS_TaskTimerStep, h]

/-- The timer step either keeps a slot's `function` field or clears it. -/
theorem OS_TaskTimerStep_function (time : Nat) (t : OSTask) :
    (OS_TaskTimerStep time t).function = t.function ∨
      (OS_TaskTimerStep time t).function = 0 := by
  unfold OS_TaskTimerStep
  split
  · split
    · split
      · left; rfl
      · left; rfl
    · split
      · right; rfl
      · left; rfl
  · left; rfl

/-- C2 (amended): if slot `i` (below the high-water mark) holds a STOPPED
task whose non-null identity `f` is unique in the table, then after the next
`OS_TaskTimer` (which reclaims the slot): `OS_TaskIsInQueue f` is false;
a registration with a valid period returns `NOK_CNT_LIMIT` exactly when the
high-water mark `task_count` has reached `OS_MAX_TASK_NUM` (even though a
freed slot exists); and when `task_count < OS_MAX_TASK_NUM`, registering a
fresh non-null identity returns `OK` and reuses a freed slot below the
high-water mark — the insert position is an empty slot `< task_count`,
`task_count` is unchanged, and the new record is written there. -/
theorem reclaim_frees_identity_and_slot (s : SchedState) (i : Nat)
    (hi : i < s.task_count)
    (hstop : (taskAt s.task_array i).state = STOPPED)
    (hf0 : (taskAt s.task_array i).function ≠ 0)
    (huniq : ∀ j, j < s.task_count → j ≠ i →
      (taskAt s.task_array j).function ≠ (taskAt s.task_array i).function) :
    OS_TaskIsInQueue (OS_TaskTimer s) ((taskAt s.task_array i).function) = false ∧
    (∀ (g p : Nat) (st : OS_state) (dat df : Nat),
      OS_MIN_TIME ≤ p → p ≤ OS_MAX_TIME →
      ((OS_TaskCreate (OS_TaskTimer s) g p st dat df).1 = NOK_CNT_LIMIT ↔
        OS_MAX_TASK_NUM ≤ s.task_count)) ∧
    (∀ (g p : Nat) (st : OS_state) (dat df : Nat),
      OS_MIN_TIME ≤ p → p ≤ OS_MAX_TIME →
      s.task_count < OS_MAX_TASK_NUM → g ≠ 0 →
      (∀ j, j < s.task_count → (taskAt s.task_array j).function ≠ g) →
      (OS_TaskInsertPosition (OS_TaskTimer s)).1 < s.task_count ∧
      (taskAt (OS_TaskTimer s).task_array
        (OS_TaskInsertPosition (OS_TaskTimer s)).1).function = 0 ∧
      (OS_TaskCreate (OS_TaskTimer s) g p st dat df).1 = OK ∧
      (OS_TaskCreate (OS_TaskTimer s) g p st dat df).2.task_count = s.task_count ∧
      (OS_TaskCreate (OS_TaskTimer s) g p st dat df).2.task_array =
        (OS_TaskTimer s).task_array.set (OS_TaskInsertPosition (OS_TaskTimer s)).1
          ⟨g, p, ((OS_TaskTimer s).os_time + df) % U32, st, dat⟩) := by
  have hmap := fun j => taskAt_mapBelow (OS_TaskTimerStep ((s.os_time + period_1ms) % U32))
    (OS_TaskTimerStep_default _) s.task_array s.task_count j
  have harr : (OS_TaskTimer s).task_array =
      mapBelow (OS_TaskTimerStep ((s.os_time + period_1ms) % U32))
        s.task_count s.task_array := rfl
  have hcnt2 : (OS_TaskTimer s).task_count = s.task_count := rfl
  have hslot : taskAt (OS_TaskTimer s).task_array i = defaultTask := by
    rw [harr, hmap i, if_pos hi, OS_TaskTimerStep_stopped _ _ hstop]
  have hfn : ∀ j, j < s.task_count →
      (taskAt (OS_TaskTimer s).task_array j).function =
          (taskAt s.task_array j).function ∨
        (taskAt (OS_TaskTimer s).task_array j).function = 0 := by
    intro j hj
    rw [harr, hmap j, if_pos hj]
    exact OS_TaskTimerStep_function _ _
  have hnof : ∀ (g : Nat), g ≠ 0 →
      (∀ j, j < s.task_count → (taskAt s.task_array j).function ≠ g) →
      OS_TaskFind (OS_TaskTimer s) g = OS_MAX_TASK_NUM + 1 := by
    intro g hg0 hgfresh
    show findLoop g (OS_TaskTimer s).task_array 0 (OS_TaskTimer s).task_count =
      OS_MAX_TASK_NUM + 1
    rw [hcnt2]
    apply findLoop_invalid
    intro j _ hj
    rw [Nat.zero_add] at hj
    rcases hfn j hj with h | h
    · rw [h]; exact hgfresh j hj
    · rw [h]; exact fun habs => hg0 habs.symm
  have hffind : OS_TaskFind (OS_TaskTimer s) ((taskAt s.task_array i).function) =
      OS_MAX_TASK_NUM + 1 := by
    show findLoop _ (OS_TaskTimer s).task_array 0 (OS_TaskTimer s).task_count = _
    rw [hcnt2]
    apply findLoop_invalid
    intro j _ hj
    rw [Nat.zero_add] at hj
    by_cases hji : j = i
    · rw [hji, hslot]
      exact fun habs => hf0 habs.symm
    · rcases hfn j hj with h | h
      · rw [h]; exact huniq j hj hji
      · rw [h]; exact fun habs => hf0 habs.symm
  refine ⟨?_, ?_, ?_⟩
  · simp [OS_TaskIsInQueue, hffind]
  · intro g p st dat df hmin hmax
    have h1 : ¬ (OS_MIN_TIME > p ∨ OS_MAX_TIME < p) := by
      push_neg
      exact ⟨hmin, hmax⟩
    by_cases hc : OS_MAX_TASK_NUM ≤ s.task_count
    · have hc2 : OS_MAX_TASK_NUM ≤ (OS_TaskTimer s).task_count := hc
      constructor
      · intro _; exact hc
      · intro _
        simp only [OS_TaskCreate, if_neg h1, if_pos hc2]
    · have hc2 : ¬ OS_MAX_TASK_NUM ≤ (OS_TaskTimer s).task_count := hc
      have hok : (OS_TaskCreate (OS_TaskTimer s) g p st dat df).1 = OK := by
        simp only [OS_TaskCreate, if_neg h1, if_neg hc2]
        split <;> rfl
      constructor
      · intro habs
        rw [hok] at habs
        exact absurd habs (by decide)
      · intro habs
        exact absurd habs hc
  · intro g p st dat df hmin hmax hlt hg0 hgfresh
    have h1 : ¬ (OS_MIN_TIME > p ∨ OS_MAX_TIME < p) := by
      push_neg
      exact ⟨hmin, hmax⟩
    have hc2 : ¬ OS_MAX_TASK_NUM ≤ (OS_TaskTimer s).task_count := by
      rw [hcnt2]; omega
    have hreuse := insertLoop_reuse (OS_TaskTimer s).task_array s.task_count
      (s.task_count + 1) 0
      ⟨i, Nat.zero_le i, by omega, hi, by rw [hslot]; rfl⟩
    have hins : OS_TaskInsertPosition (OS_TaskTimer s) =
        insertLoop (OS_TaskTimer s).task_array s.task_count 0 (s.task_count + 1) := rfl
    have hfind26 := hnof g hg0 hgfresh
    have hgt : OS_MAX_TASK_NUM < OS_TaskFind (OS_TaskTimer s) g := by
      rw [hfind26]; omega
    refine ⟨by rw [hins]; exact hreuse.1, by rw [hins]; exact hreuse.2.2, ?_, ?_, ?_⟩
    · simp only [OS_TaskCreate, if_neg h1, if_neg hc2, if_pos hgt]
    · simp only [OS_TaskCreate, if_neg h1, if_neg hc2, if_pos hgt]
      rw [hins] at *
      exact hreuse.2.1
    · simp only [OS_TaskCreate, if_neg h1, if_neg hc2, if_pos hgt]

/-- C2 witness: after task 5 (STOPPED, slot 0) is reclaimed by the tick,
its identity is gone and registering fresh identity 8 succeeds reusing the
freed slot, leaving the high-water mark at 2. -/
theorem reclaim_frees_identity_and_slot_witness :
    OS_TaskIsInQueue (OS_TaskTimer stoppedWitnessState)
      ((taskAt stoppedWitnessState.task_array 0).function) = false ∧
    (OS_TaskCreate (OS_TaskTimer stoppedWitnessState) 8 1 BLOCKED 0 0).1 = OK ∧
    (OS_TaskCreate (OS_TaskTimer stoppedWitnessState) 8 1 BLOCKED 0 0).2.task_count =
      stoppedWitnessState.task_count :=
  ⟨(reclaim_frees_identity_and_slot stoppedWitnessState 0 (by decide) (by decide)
      (by decide) (by decide)).1,
    ((reclaim_frees_identity_and_slot stoppedWitnessState 0 (by decide) (by decide)
      (by decide) (by decide)).2.2 8 1 BLOCKED 0 0 (by decide) (by decide)
      (by decide) (by decide) (by decide)).2.2.1,
    ((reclaim_frees_identity_and_slot stoppedWitnessState 0 (by decide) (by decide)
      (by decide) (by decide)).2.2 8 1 BLOCKED 0 0 (by decide) (by decide)
      (by decide) (by decide) (by decide)).2.2.2.1⟩

/-- One execution pass on a single-slot table applies the execution step to
that slot. -/
theorem OS_TaskExecution_single (env : Nat → Nat → Nat) (t : OSTask)
    (rest : List OSTask) (T : Nat) :
    OS_TaskExecution env ⟨t :: rest, 1, T⟩ =
      ⟨OS_TaskExecutionStep env T t :: rest, 1, T⟩ := by
  show (⟨mapBelow _ 1 (t :: rest), 1, T⟩ : SchedState) = _
  rw [mapBelow_succ_cons, mapBelow_zero]

/-- Task A (returning 10, its stored period) is put back to BLOCKED with
period and deadline unchanged. -/
theorem scenarioA_exec_step (k : Nat) :
    OS_TaskExecutionStep envA (10 * k + 10) ⟨1, 10, 10 * k + 10, READY, 0⟩ =
      ⟨1, 10, 10 * k + 10, BLOCKED, 0⟩ := by
  have h10 : envA 1 0 % U32 = 10 := by decide
  simp [OS_TaskExecutionStep, h10, period_end]

/-- Ten ticks on the scenario-A cycle state: A becomes READY on the first
tick (its deadline `10 k` has elapsed), its deadline advances to
`10 k + 10`, and the remaining nine ticks only move the clock. -/
theorem scenarioA_tick10 (k : Nat) (h : 10 * k + 10 < U32) :
    tickN 10 (scenarioAState k) =
      ⟨⟨1, 10, 10 * k + 10, READY, 0⟩ :: padTasks, 1, 10 * k + 10⟩ := by
  have hm1 : (10 * k + period_1ms) % U32 = 10 * k + 1 := by
    simp only [period_1ms]
    exact Nat.mod_eq_of_lt (by omega)
  have hd : (⟨1, 10, 10 * k, BLOCKED, 0⟩ : OSTask).execute_time ≤
      (10 * k + period_1ms) % U32 := by
    rw [hm1]
    show 10 * k ≤ 10 * k + 1
    omega
  have h1 := OS_TaskTimer_single_blocked_due ⟨1, 10, 10 * k, BLOCKED, 0⟩
    padTasks (10 * k) rfl hd
  have hm2 : (10 * k + 10 * period_1ms) % U32 = 10 * k + 10 := by
    simp only [period_1ms, Nat.mul_one]
    exact Nat.mod_eq_of_lt h
  show tickN 9 (OS_TaskTimer (scenarioAState k)) = _
  have hstart : OS_TaskTimer (scenarioAState k) =
      ⟨⟨1, 10, 10 * k + 10, READY, 0⟩ :: padTasks, 1, 10 * k + 1⟩ := by
    show OS_TaskTimer ⟨⟨1, 10, 10 * k, BLOCKED, 0⟩ :: padTasks, 1, 10 * k⟩ = _
    rw [h1, hm1]
    show (⟨⟨1, 10, (10 * k + 10 * period_1ms) % U32, READY, 0⟩ :: padTasks, 1,
      10 * k + 1⟩ : SchedState) = _
    rw [hm2]
  rw [hstart, tickN_single_ready _ padTasks rfl 9 (10 * k + 1) (by omega)]

/-- C3 (amended): task A (period 10, BLOCKED, defer 0, registered at T = 0)
first transitions to READY on the 1st tick (T = 1) with stored deadline 10
(not on the 10th tick with deadline 20); after 10 ticks and one execution
pass in which A returns 10, A is BLOCKED with deadline 10 at T = 10; and
from there each round of 10 ticks plus one execution pass exactly
reproduces the cycle state (deadline and time advance by 10), as long as
the 32-bit clock does not wrap. -/
theorem scenarioA_cycle :
    (taskAt (tickN 1 scenarioAStart).task_array 0 = ⟨1, 10, 10, READY, 0⟩ ∧
      (tickN 1 scenarioAStart).os_time = 1) ∧
    OS_TaskExecution envA (tickN 10 scenarioAStart) = scenarioAState 1 ∧
    (∀ k, 10 * k + 10 < U32 →
      OS_TaskExecution envA (tickN 10 (scenarioAState k)) = scenarioAState (k + 1)) := by
  refine ⟨by decide, by decide, ?_⟩
  intro k hk
  rw [scenarioA_tick10 k hk, OS_TaskExecution_single, scenarioA_exec_step]
  show (⟨⟨1, 10, 10 * k + 10, BLOCKED, 0⟩ :: padTasks, 1, 10 * k + 10⟩ : SchedState) =
    ⟨⟨1, 10, 10 * (k + 1), BLOCKED, 0⟩ :: padTasks, 1, 10 * (k + 1)⟩
  have : 10 * (k + 1) = 10 * k + 10 := by ring
  rw [this]

/-- C3 witness: one concrete cycle round — from the cycle state after 2
rounds, 10 ticks and an execution pass reach the cycle state after 3
rounds. -/
theorem scenarioA_cycle_witness :
    OS_TaskExecution envA (tickN 10 (scenarioAState 2)) = scenarioAState 3 :=
  scenarioA_cycle.2.2 2 (by decide)
